import Mathlib

/-!
Verification of the LinkedIn connection-automation engine (src/main.py).

The Python source is shallowly embedded: pure string manipulation is
translated to Lean functions on `String`, and stateful browser-driven code
is translated to functions over an explicit quota state together with a
trace of externally visible actions (navigations, clicks, ledger writes).
-/

namespace LinkedInAutomation

/-! ### Python string primitives

Faithful models of the Python string operations the source uses: `in`
(substring containment), `startswith`, `split` with indexing into the
pieces, `replace`, `strip` and `title`.  They are written by structural
recursion on the character list so that every concrete instance
evaluates inside the kernel.
-/

/-- Python `s.split(sep)` on character lists, for a non-empty separator.
The `Nat` argument counts separator characters still to be consumed
after a match (the first matched character is consumed by the step
itself, so the counter starts at `sep.length - 1`). -/
def pySplitCh (sep : List Char) : List Char → Nat → List (List Char)
  | [], _ => [[]]
  | _ :: cs, k + 1 => pySplitCh sep cs k
  | c :: cs, 0 =>
    if sep.isPrefixOf (c :: cs) then
      [] :: pySplitCh sep cs (sep.length - 1)
    else
      match pySplitCh sep cs 0 with
      | [] => [[c]]
      | p :: ps => (c :: p) :: ps

/-- Python `s.split(sep)`. -/
def pySplit (s sep : String) : List String :=
  (pySplitCh sep.toList s.toList 0).map String.mk

/-- Python `needle in haystack` for a non-empty needle: `split` yields
more than one piece iff the needle occurs. -/
def pyContains (haystack needle : String) : Bool :=
  1 < (pySplit haystack needle).length

/-- Python `s.startswith(p)`. -/
def pyStartsWith (s p : String) : Bool :=
  p.toList.isPrefixOf s.toList

/-- Python `s.split(sep)[0]` (the head of a split always exists). -/
def pySplitHead (s sep : String) : String :=
  (pySplit s sep).headD s

/-- Python `s.split(sep)[-1]`. -/
def pySplitLast (s sep : String) : String :=
  (pySplit s sep).getLastD s

/-- Python `s.replace(old, new)` on character lists: every
non-overlapping occurrence, scanned left to right.  The `Nat` argument
counts matched characters still to be dropped. -/
def pyReplaceCh (old new : List Char) : List Char → Nat → List Char
  | [], _ => []
  | _ :: cs, k + 1 => pyReplaceCh old new cs k
  | c :: cs, 0 =>
    if old.isPrefixOf (c :: cs) then
      new ++ pyReplaceCh old new cs (old.length - 1)
    else
      c :: pyReplaceCh old new cs 0

/-- Python `s.replace(old, new)`. -/
def pyReplace (s old new : String) : String :=
  String.mk (pyReplaceCh old.toList new.toList s.toList 0)

/-- Python `s.strip()` (the program only strips ASCII whitespace). -/
def pyStrip (s : String) : String :=
  String.mk (((s.toList.dropWhile Char.isWhitespace).reverse.dropWhile
    Char.isWhitespace).reverse)

/-- One step of Python `str.title` over the character list: an alphabetic
character starting a run is uppercased, later characters of the run are
lowercased, everything else is kept (Python documents title-casing via
"groups of consecutive letters"; the strings in this program are ASCII). -/
def titleGo : Bool → List Char → List Char
  | _, [] => []
  | prevAlpha, c :: cs =>
    if c.isAlpha then
      (if prevAlpha then c.toLower else c.toUpper) :: titleGo true cs
    else
      c :: titleGo false cs

/-- Python `s.title()`. -/
def pyTitle (s : String) : String :=
  String.mk (titleGo false s.toList)

theorem pyStartsWith_append (a b : String) : pyStartsWith (a ++ b) a = true := by
  simp [pyStartsWith, String.toList, String.data_append, List.isPrefixOf_iff_prefix]

/-! ### Profile URL normalization (process_profiles_from_csv, main.py 2281-2293)

The batch loop canonicalizes each CSV row's URL before processing:

```python
if not profile_url.startswith(('https://www.linkedin.com/in/', 'https://linkedin.com/in/')):
    if 'linkedin.com' in profile_url and '/in/' in profile_url:
        parts = profile_url.split('/in/')
        if len(parts) > 1:
            profile_url = f"https://www.linkedin.com/in/{parts[1].split('?')[0].split('#')[0]}"
        else:
            continue   # skip
    else:
        continue       # skip
```

A skipped row is modeled as `none`.
-/

/-- First member of the `startswith` tuple: the canonical URL head. -/
def canonicalHead1 : String := "https://www.linkedin.com/in/"

/-- Second member of the `startswith` tuple. -/
def canonicalHead2 : String := "https://linkedin.com/in/"

/-- URL canonicalization performed by `process_profiles_from_csv` on each
row.  `none` means the row is skipped as an invalid LinkedIn URL. -/
def normalizeProfileUrl (u : String) : Option String :=
  if pyStartsWith u canonicalHead1 || pyStartsWith u canonicalHead2 then
    some u
  else if pyContains u "linkedin.com" && pyContains u "/in/" then
    match pySplit u "/in/" with
    | _ :: p1 :: _ =>
        some (canonicalHead1 ++ pySplitHead (pySplitHead p1 "?") "#")
    | _ => none
  else none

/-- Every URL produced by normalization starts with a canonical head, so
normalizing it again takes the identity branch. -/
theorem normalizeProfileUrl_output_canonical (u v : String)
    (h : normalizeProfileUrl u = some v) :
    (pyStartsWith v canonicalHead1 || pyStartsWith v canonicalHead2) = true := by
  unfold normalizeProfileUrl at h
  split at h
  · next hc =>
      cases h
      exact hc
  · split at h
    · split at h
      · cases h
        simp [pyStartsWith_append]
      · cases h
    · cases h

/-- The URL-extraction normalization in `_extract_profile_data`
(main.py 1867): `href.split("?")[0]`, dropping the query string only. -/
def extractProfileUrl (href : String) : String :=
  pySplitHead href "?"

/-! ### Connection-state classifier (check_connection_status, main.py 500-635)

The classifier navigates to the profile and runs an evidence chain in
strict priority order.  Each selector family of the source collapses to
one boolean of `ProfilePage` ("some element of that family is
displayed").  Driver-level actions the function emits are recorded in a
trace.  The only exception the surrounding `try` can see arises while a
"More" overflow menu is being inspected (modeled by
`MoreMenuCase.inspectRaises`); the handler at main.py 615-621 catches it
and still dispatches the body click that closes the menu before the
scan falls through to the follow check. -/

/-- Relationship states, matching the strings returned by the source. -/
inductive ConnStatus
  | not_connected
  | pending
  | connected
  | unknown
deriving DecidableEq, Repr

/-- What happens when the classifier opens the "More" overflow menu:
a connect option is displayed inside it, none is, or the inspection
raises after the menu has been opened. -/
inductive MoreMenuCase
  | connectFound
  | connectNotFound
  | inspectRaises
deriving DecidableEq, Repr

/-- Evidence visible on a freshly loaded profile page.  Each field is
"some element matched by that selector family is displayed". -/
structure ProfilePage where
  /-- `"/in/" in driver.current_url` after the navigation (no redirect). -/
  onProfileUrl : Bool
  /-- A primary Connect control is visible (main.py 520-537). -/
  visibleConnect : Bool
  /-- Pending / withdraw-invitation evidence is visible (main.py 540-556). -/
  visiblePending : Bool
  /-- A first-degree badge or Connected text is visible (main.py 559-575). -/
  visibleFirstDegree : Bool
  /-- A 2nd/3rd-degree badge is visible (main.py 578-592). -/
  visibleOtherDegree : Bool
  /-- A visible "More" button, if any, and what its menu holds (main.py 594-621). -/
  moreMenu : Option MoreMenuCase
  /-- A Follow (not Following) button is visible (main.py 624). -/
  visibleFollow : Bool
deriving DecidableEq, Repr

/-- Externally visible actions of the engine. -/
inductive Action
  | nav
  | clickControl
  | openMenu
  | closeMenu
  | sleep (seconds : Nat)
  | ledgerWrite (count : Nat)
deriving DecidableEq, Repr

/-- Tail of the classifier after the More-menu stage: the Follow-button
check (main.py 624-631). -/
def followFallback (p : ProfilePage) (tr : List Action) : ConnStatus × List Action :=
  if p.visibleFollow then (ConnStatus.not_connected, tr) else (ConnStatus.unknown, tr)

/-- `check_connection_status`: the evidence chain in source order.
The trace records the navigation and any menu open/close clicks. -/
def check_connection_status (p : ProfilePage) : ConnStatus × List Action :=
  if !p.onProfileUrl then (ConnStatus.unknown, [Action.nav])
  else if p.visibleConnect then (ConnStatus.not_connected, [Action.nav])
  else if p.visiblePending then (ConnStatus.pending, [Action.nav])
  else if p.visibleFirstDegree then (ConnStatus.connected, [Action.nav])
  else if p.visibleOtherDegree then (ConnStatus.not_connected, [Action.nav])
  else
    match p.moreMenu with
    | some MoreMenuCase.connectFound =>
        (ConnStatus.not_connected, [Action.nav, Action.openMenu, Action.closeMenu])
    | some MoreMenuCase.connectNotFound =>
        followFallback p [Action.nav, Action.openMenu, Action.closeMenu]
    | some MoreMenuCase.inspectRaises =>
        followFallback p [Action.nav, Action.openMenu, Action.closeMenu]
    | none => followFallback p [Action.nav]

/-! ### Quota state and the request workflow (send_connection_request, main.py 771-1339)

`request_count` and `_last_request_time` are the two mutable counters of
the engine.  The retry loop's per-attempt UI interaction is abstracted
into an `AttemptOutcome`: either some verification step succeeded (every
such step in the source runs `request_count += 1; _save_request_count()`
and immediately returns `True` — the connect path via
`_verify_connection_sent`, the follow path at main.py 1268-1301, and the
pending-after-reload path at main.py 1313-1319), or the attempt failed /
found no control / raised, in which case no counter update happens and
the loop retries or gives up. -/

/-- The engine's mutable counters. -/
structure QuotaState where
  request_count : Nat
  last_request_time : Nat
deriving DecidableEq, Repr

/-- Result of a workflow call: returned boolean, updated counters, and
the trace of external actions. -/
structure SendResult where
  ok : Bool
  state : QuotaState
  trace : List Action
deriving DecidableEq, Repr

/-- Abstract outcome of one iteration of the retry loop. -/
inductive AttemptOutcome
  | verifiedSend
  | attemptFailed
  | noControl
  | raised
deriving DecidableEq, Repr

/-- The throttle computation at main.py 783-790: number of seconds slept
before proceeding, given the stored `_last_request_time` and the current
time (the clock is assumed monotone, `last ≤ now`, where it matters). -/
def throttleWait (last now : Nat) : Nat :=
  if now - last < 15 then 15 - (now - last) else 0

/-- Actions emitted by one retry attempt, by outcome.  Every attempt
navigates to the profile; a located control is clicked; a verified send
writes the incremented count to the ledger. -/
def attemptTrace (st : QuotaState) : AttemptOutcome → List Action
  | AttemptOutcome.verifiedSend =>
      [Action.nav, Action.clickControl, Action.ledgerWrite (st.request_count + 1)]
  | AttemptOutcome.attemptFailed => [Action.nav, Action.clickControl]
  | AttemptOutcome.noControl => [Action.nav]
  | AttemptOutcome.raised => [Action.nav]

/-- The retry loop (`for attempt in range(max_retries + 1)`): the first
verified send increments the counter by one and returns `True`; an
exhausted loop returns `False` with the counters untouched. -/
def attemptLoop (outcome : Nat → AttemptOutcome) (idx : Nat) (fuel : Nat)
    (st : QuotaState) : SendResult :=
  match fuel with
  | 0 => ⟨false, st, []⟩
  | f + 1 =>
    match outcome idx with
    | AttemptOutcome.verifiedSend =>
        ⟨true, { st with request_count := st.request_count + 1 },
          attemptTrace st AttemptOutcome.verifiedSend⟩
    | o =>
        let r := attemptLoop outcome (idx + 1) f st
        ⟨r.ok, r.state, attemptTrace st o ++ r.trace⟩

/-- Outcome of a `_find_connect_button` call (main.py 1342-1421).  The
function first scans the direct Connect selectors with the side-effect
free `_find_element`; only when none matches does it locate a "More"
button and drive the click dispatcher against it to open the dropdown:
`foundDirect` — a direct Connect button is visible, returned with no
click dispatched; `foundInMore` — the More button is clicked, the
dropdown opens and holds a Connect item, which is returned with the
menu left open; `moreNoConnect` — the More button is clicked, the
opened dropdown holds no Connect item, and a body click closes it
before `None` is returned; `moreClickFails` — every click technique on
the More button raises, so the dropdown never opens and `None` is
returned; `noButton` — neither a direct Connect button nor a More
button is found, `None` with no click. -/
inductive FindConnectCase
  | foundDirect
  | foundInMore
  | moreNoConnect
  | moreClickFails
  | noButton
deriving DecidableEq, Repr

/-- Whether `_find_connect_button` returns a button (non-`None`). -/
def findsButton : FindConnectCase → Bool
  | FindConnectCase.foundDirect => true
  | FindConnectCase.foundInMore => true
  | _ => false

/-- Clicks `_find_connect_button` dispatches in each case:
opening the More dropdown (main.py 1392), the body click that closes it
when no Connect item is inside (main.py 1414), and — when every click
technique on the More button raises — the click attempts themselves,
recorded as `clickControl` like any other unverified click dispatch on
a control in this embedding. -/
def findConnectTrace : FindConnectCase → List Action
  | FindConnectCase.foundDirect => []
  | FindConnectCase.foundInMore => [Action.openMenu]
  | FindConnectCase.moreNoConnect => [Action.openMenu, Action.closeMenu]
  | FindConnectCase.moreClickFails => [Action.clickControl]
  | FindConnectCase.noButton => []

/-- Environment of one `send_connection_request` call: the wall-clock
time at entry, the page evidence the initial classification sees, the
`LINKEDIN_VERIFY_CONNECTED` environment flag and the behaviour of the
`_find_connect_button` re-check it guards (main.py 808-820), the retry
outcomes, and `max_retries` (default 2). -/
structure SendEnv where
  now : Nat
  page : ProfilePage
  verifyConnectedEnv : Bool
  recheck : FindConnectCase
  outcome : Nat → AttemptOutcome
  maxRetries : Nat

/-- `send_connection_request` (main.py 771-1339): throttle, daily-limit
gate, initial classification with the pending/connected short-circuit
(and the `LINKEDIN_VERIFY_CONNECTED` override, whose re-check runs
`_find_connect_button` after a fresh navigation and proceeds with the
connection attempt when it returns a button), then the retry loop. -/
def send_connection_request (daily_limit : Nat) (env : SendEnv)
    (st : QuotaState) : SendResult :=
  let w := throttleWait st.last_request_time env.now
  let st1 : QuotaState := { st with last_request_time := env.now + w }
  let waitTr : List Action := if w = 0 then [] else [Action.sleep w]
  if daily_limit ≤ st1.request_count then
    ⟨false, st1, waitTr⟩
  else
    let c := check_connection_status env.page
    let tr := waitTr ++ c.2
    match c.1 with
    | ConnStatus.pending => ⟨true, st1, tr⟩
    | ConnStatus.connected =>
        if env.verifyConnectedEnv then
          if findsButton env.recheck then
            let r := attemptLoop env.outcome 0 (env.maxRetries + 1) st1
            ⟨r.ok, r.state,
              tr ++ [Action.nav] ++ findConnectTrace env.recheck ++ r.trace⟩
          else ⟨true, st1, tr ++ [Action.nav] ++ findConnectTrace env.recheck⟩
        else ⟨true, st1, tr⟩
    | _ =>
        let r := attemptLoop env.outcome 0 (env.maxRetries + 1) st1
        ⟨r.ok, r.state, tr ++ r.trace⟩

/-! ### Send verification (_verify_connection_sent, main.py 637-769)

The verifier evaluates seven checks in priority order; the first
positive one runs `request_count += 1; _save_request_count(); return
True`, otherwise it returns `False`.  The counter increment cannot
raise and `_save_request_count` swallows its own I/O errors, so an
exception (driver access failing) can only abort the walk *between*
checks, before any increment; it is caught at main.py 767 and turned
into `False`.  `raisesAt = some k` models a driver failure surfacing at
check `k`. -/

/-- Page evidence inspected by `_verify_connection_sent`. -/
structure VerifyPage where
  /-- Pending button inside the profile-actions area (main.py 653-667). -/
  pendingInActions : Bool
  /-- Any visible Pending button (main.py 670-683). -/
  pendingButton : Bool
  /-- A success toast notification (main.py 686-698). -/
  toast : Bool
  /-- A visible success text indicator (main.py 701-713). -/
  successText : Bool
  /-- No Connect button is visible any more (main.py 717-724). -/
  connectGone : Bool
  /-- `"/in/" in current_url` and no open dialog (main.py 726, 734). -/
  onProfileNoDialog : Bool
  /-- A context-specific pending pattern occurs in the page source. -/
  sourcePattern : Bool
  /-- A general success keyword occurs in the page source. -/
  sourceKeyword : Bool
  /-- Index of the check at which driver access raises, if any. -/
  raisesAt : Option Nat
deriving DecidableEq

/-- The seven checks of `_verify_connection_sent`, in source order. -/
def verifyChecks (p : VerifyPage) : List Bool :=
  [p.pendingInActions,
   p.pendingButton,
   p.toast,
   p.successText,
   p.connectGone && p.onProfileNoDialog,
   p.onProfileNoDialog && p.sourcePattern,
   p.onProfileNoDialog && p.connectGone && p.sourceKeyword]

/-- Walks the checks from index `k`: an exception yields `False`
untouched; a positive check increments the counter, persists it and
yields `True`; an exhausted list yields `False` untouched. -/
def verifyWalk (raisesAt : Option Nat) (k : Nat) (st : QuotaState) :
    List Bool → SendResult
  | [] => ⟨false, st, []⟩
  | b :: rest =>
    if raisesAt = some k then ⟨false, st, []⟩
    else if b then
      ⟨true, { st with request_count := st.request_count + 1 },
        [Action.ledgerWrite (st.request_count + 1)]⟩
    else verifyWalk raisesAt (k + 1) st rest

/-- `_verify_connection_sent`. -/
def verify_connection_sent (p : VerifyPage) (st : QuotaState) : SendResult :=
  verifyWalk p.raisesAt 0 st (verifyChecks p)

/-! ### Action dispatcher (_try_all_click_methods, main.py 392-482)

Six click techniques are tried in a fixed order; before the first one,
the element is scrolled into a centered viewport and the code pauses
half a second (the scroll's own failure is swallowed and skips the
pause).  The first technique that does not raise yields `True`; if all
six raise the function returns `False`. -/

/-- The six interaction techniques, in source order. -/
inductive ClickMethod
  | jsClick
  | jsEvent
  | nativeClick
  | actionChainsClick
  | offsetClick
  | waitClick
deriving DecidableEq, Repr

/-- Behaviour of a resolved element under the dispatcher: which
techniques raise on it, and whether the initial scroll raises. -/
structure ClickElem where
  jsClickRaises : Bool
  jsEventRaises : Bool
  nativeClickRaises : Bool
  actionChainsRaises : Bool
  offsetClickRaises : Bool
  waitClickRaises : Bool
  scrollRaises : Bool
deriving DecidableEq, Repr

/-- Whether technique `m` raises on element `e`. -/
def methodRaises (e : ClickElem) : ClickMethod → Bool
  | ClickMethod.jsClick => e.jsClickRaises
  | ClickMethod.jsEvent => e.jsEventRaises
  | ClickMethod.nativeClick => e.nativeClickRaises
  | ClickMethod.actionChainsClick => e.actionChainsRaises
  | ClickMethod.offsetClick => e.offsetClickRaises
  | ClickMethod.waitClick => e.waitClickRaises

/-- The order in which the source tries the techniques. -/
def clickMethodOrder : List ClickMethod :=
  [ClickMethod.jsClick, ClickMethod.jsEvent, ClickMethod.nativeClick,
   ClickMethod.actionChainsClick, ClickMethod.offsetClick, ClickMethod.waitClick]

/-- Actions of the dispatcher itself. -/
inductive ClickAction
  | scrollIntoView
  | pause
  | attemptClick (m : ClickMethod)
deriving DecidableEq, Repr

/-- The try/except chain: each raising technique is recorded and the
next one is tried; the first non-raising one ends the chain with
success. -/
def clickChain (e : ClickElem) : List ClickMethod → Bool × List ClickAction
  | [] => (false, [])
  | m :: rest =>
    if methodRaises e m then
      let r := clickChain e rest
      (r.1, ClickAction.attemptClick m :: r.2)
    else (true, [ClickAction.attemptClick m])

/-- `_try_all_click_methods` on a resolved (non-`None`) element. -/
def try_all_click_methods (e : ClickElem) : Bool × List ClickAction :=
  let pre : List ClickAction :=
    if e.scrollRaises then [] else [ClickAction.scrollIntoView, ClickAction.pause]
  let r := clickChain e clickMethodOrder
  (r.1, pre ++ r.2)

/-! ### Locator resolver (_find_element, main.py 331-352)

`find_elements` returns a list of matches; the loop returns the first
one whose `is_displayed()` is true, skipping (via the inner
`except: continue`) any element that detaches between the query and the
visibility check; if nothing qualifies, or the query itself raises, the
function returns `None`. -/

/-- State of one matched element at visibility-check time. -/
inductive ElemState
  | visible
  | hidden
  | vanishes
deriving DecidableEq, Repr

/-- `_find_element`, returning the index of the chosen element. -/
def find_element : List ElemState → Option Nat
  | [] => none
  | ElemState.visible :: _ => some 0
  | _ :: rest => (find_element rest).map (· + 1)

/-! ### Batch loop (process_profiles_from_csv, main.py 2326-2374)

The per-row portion of the batch loop that the claims address: the
daily-limit gate (which appends a skip record and `break`s before any
navigation), the per-row classification, the pending/connected skip,
and the nested `send_connection_request` call.  Rows are taken after
URL validation/normalization (modeled separately by
`normalizeProfileUrl`) and the result-note timing suffixes and the
inter-profile random delay are elided. -/

/-- Environment of one batch row: the page evidence seen by the batch's
own classification and the environment of the nested send call. -/
structure RowEnv where
  page : ProfilePage
  send : SendEnv

/-- The fields of a per-row result record the claims refer to. -/
structure RowResult where
  connect_status : Bool
  connection_state : ConnStatus
  note : String
deriving DecidableEq, Repr

/-- The batch loop over validated rows. -/
def process_profiles (daily_limit : Nat) (rows : List RowEnv)
    (st : QuotaState) : List RowResult × QuotaState × List Action :=
  match rows with
  | [] => ([], st, [])
  | r :: rest =>
    if daily_limit ≤ st.request_count then
      ([⟨false, ConnStatus.unknown, "Skipped due to daily limit"⟩], st, [])
    else
      let c := check_connection_status r.page
      if c.1 = ConnStatus.pending ∨ c.1 = ConnStatus.connected then
        let res : RowResult :=
          ⟨true, c.1,
            if c.1 = ConnStatus.connected then "Already connected"
            else "Request already pending"⟩
        let k := process_profiles daily_limit rest st
        (res :: k.1, k.2.1, c.2 ++ k.2.2)
      else
        let sr := send_connection_request daily_limit r.send st
        let res : RowResult :=
          ⟨sr.ok, c.1,
            if sr.ok then "Connection request sent"
            else "Failed to send connection request"⟩
        let k := process_profiles daily_limit rest sr.state
        (res :: k.1, k.2.1, c.2 ++ sr.trace ++ k.2.2)

/-! ### Helper lemmas -/

/-- The retry loop either succeeds having incremented the counter once
(writing the new value to the ledger) or fails leaving state untouched. -/
theorem attemptLoop_cases (outcome : Nat → AttemptOutcome) (idx fuel : Nat)
    (st : QuotaState) :
    ((attemptLoop outcome idx fuel st).ok = true ∧
      (attemptLoop outcome idx fuel st).state =
        { st with request_count := st.request_count + 1 } ∧
      Action.ledgerWrite (st.request_count + 1) ∈
        (attemptLoop outcome idx fuel st).trace) ∨
    ((attemptLoop outcome idx fuel st).ok = false ∧
      (attemptLoop outcome idx fuel st).state = st) := by
  induction fuel generalizing idx with
  | zero => exact Or.inr ⟨rfl, rfl⟩
  | succ f ih =>
    cases ho : outcome idx with
    | verifiedSend =>
        refine Or.inl ⟨?_, ?_, ?_⟩ <;> simp [attemptLoop, ho, attemptTrace]
    | attemptFailed =>
        rcases ih (idx + 1) with ⟨h1, h2, h3⟩ | ⟨h1, h2⟩
        · exact Or.inl ⟨by simp [attemptLoop, ho, h1],
            by simp [attemptLoop, ho, h2],
            by simp [attemptLoop, ho]; exact Or.inr h3⟩
        · exact Or.inr ⟨by simp [attemptLoop, ho, h1], by simp [attemptLoop, ho, h2]⟩
    | noControl =>
        rcases ih (idx + 1) with ⟨h1, h2, h3⟩ | ⟨h1, h2⟩
        · exact Or.inl ⟨by simp [attemptLoop, ho, h1],
            by simp [attemptLoop, ho, h2],
            by simp [attemptLoop, ho]; exact Or.inr h3⟩
        · exact Or.inr ⟨by simp [attemptLoop, ho, h1], by simp [attemptLoop, ho, h2]⟩
    | raised =>
        rcases ih (idx + 1) with ⟨h1, h2, h3⟩ | ⟨h1, h2⟩
        · exact Or.inl ⟨by simp [attemptLoop, ho, h1],
            by simp [attemptLoop, ho, h2],
            by simp [attemptLoop, ho]; exact Or.inr h3⟩
        · exact Or.inr ⟨by simp [attemptLoop, ho, h1], by simp [attemptLoop, ho, h2]⟩

/-- With the daily limit reached, the call returns `False` straight from
the gate: state update is only the throttle timestamp, trace is at most
the throttle sleep. -/
theorem send_refuses (daily_limit : Nat) (env : SendEnv) (st : QuotaState)
    (h : daily_limit ≤ st.request_count) :
    (send_connection_request daily_limit env st).ok = false ∧
    (send_connection_request daily_limit env st).state.request_count =
      st.request_count ∧
    (send_connection_request daily_limit env st).trace =
      (if throttleWait st.last_request_time env.now = 0 then []
       else [Action.sleep (throttleWait st.last_request_time env.now)]) := by
  refine ⟨?_, ?_, ?_⟩ <;> simp [send_connection_request, h]

/-- A call either leaves the counter unchanged, or increments it by
exactly one — and then the gate was open and the new value was written
to the ledger. -/
theorem send_count_cases (daily_limit : Nat) (env : SendEnv) (st : QuotaState) :
    (send_connection_request daily_limit env st).state.request_count =
      st.request_count ∨
    ((send_connection_request daily_limit env st).state.request_count =
        st.request_count + 1 ∧
      st.request_count < daily_limit ∧
      Action.ledgerWrite (st.request_count + 1) ∈
        (send_connection_request daily_limit env st).trace) := by
  by_cases hlim : daily_limit ≤ st.request_count
  · exact Or.inl (send_refuses daily_limit env st hlim).2.1
  · have hlt : st.request_count < daily_limit := Nat.lt_of_not_le hlim
    rcases hc : (check_connection_status env.page).1 with _ | _ | _ | _
    · rcases attemptLoop_cases env.outcome 0 (env.maxRetries + 1)
          { st with last_request_time :=
              env.now + throttleWait st.last_request_time env.now } with
        ⟨_, h2, h3⟩ | ⟨_, h2⟩
      · refine Or.inr ⟨?_, hlt, ?_⟩ <;>
          simp [send_connection_request, hlim, hc, h2, h3]
      · exact Or.inl (by simp [send_connection_request, hlim, hc, h2])
    · exact Or.inl (by simp [send_connection_request, hlim, hc])
    · cases hv : env.verifyConnectedEnv with
      | false => exact Or.inl (by simp [send_connection_request, hlim, hc, hv])
      | true =>
        cases hr : findsButton env.recheck with
        | false => exact Or.inl (by simp [send_connection_request, hlim, hc, hv, hr])
        | true =>
          rcases attemptLoop_cases env.outcome 0 (env.maxRetries + 1)
              { st with last_request_time :=
                  env.now + throttleWait st.last_request_time env.now } with
            ⟨_, h2, h3⟩ | ⟨_, h2⟩
          · refine Or.inr ⟨?_, hlt, ?_⟩ <;>
              simp [send_connection_request, hlim, hc, hv, hr, h2, h3]
          · exact Or.inl (by simp [send_connection_request, hlim, hc, hv, hr, h2])
    · rcases attemptLoop_cases env.outcome 0 (env.maxRetries + 1)
          { st with last_request_time :=
              env.now + throttleWait st.last_request_time env.now } with
        ⟨_, h2, h3⟩ | ⟨_, h2⟩
      · refine Or.inr ⟨?_, hlt, ?_⟩ <;>
          simp [send_connection_request, hlim, hc, h2, h3]
      · exact Or.inl (by simp [send_connection_request, hlim, hc, h2])

/-! ### Claim theorems -/

/-- C1.  The quota counter is non-decreasing across a
`send_connection_request` call and, starting within the configured
limit, never exceeds `daily_limit`; once `request_count >= daily_limit`
the call refuses (returns `False`, counter untouched); any change is an
increment by exactly one, paired with a ledger write of the new value
after a verified send. -/
theorem quota_counter_invariant (daily_limit : Nat) (env : SendEnv)
    (st : QuotaState) (hinit : st.request_count ≤ daily_limit) :
    st.request_count ≤
      (send_connection_request daily_limit env st).state.request_count ∧
    (send_connection_request daily_limit env st).state.request_count ≤
      daily_limit ∧
    (daily_limit ≤ st.request_count →
      (send_connection_request daily_limit env st).ok = false ∧
      (send_connection_request daily_limit env st).state.request_count =
        st.request_count) ∧
    ((send_connection_request daily_limit env st).state.request_count =
        st.request_count ∨
      ((send_connection_request daily_limit env st).state.request_count =
          st.request_count + 1 ∧
        Action.ledgerWrite (st.request_count + 1) ∈
          (send_connection_request daily_limit env st).trace)) := by
  rcases send_count_cases daily_limit env st with h | ⟨h, hlt, hmem⟩
  · exact ⟨Nat.le_of_eq h.symm, h ▸ hinit,
      fun hge => ⟨(send_refuses daily_limit env st hge).1,
        (send_refuses daily_limit env st hge).2.1⟩,
      Or.inl h⟩
  · refine ⟨h ▸ Nat.le_succ _, h ▸ hlt, fun hge => absurd hge (Nat.not_le.mpr hlt),
      Or.inr ⟨h, hmem⟩⟩

/-- C1 witness: a run at `daily_limit = 2` starting from one counted
request, where the attempt verifies: the counter moves from 1 to 2 and
stays within the limit. -/
def c1Page : ProfilePage :=
  ⟨true, true, false, false, false, none, false⟩

/-- C1 witness environment: a not-connected profile whose first attempt
verifies. -/
def c1Env : SendEnv :=
  ⟨100, c1Page, false, FindConnectCase.noButton,
    fun _ => AttemptOutcome.verifiedSend, 2⟩

theorem quota_counter_invariant_witness :
    1 ≤ (send_connection_request 2 c1Env ⟨1, 0⟩).state.request_count ∧
    (send_connection_request 2 c1Env ⟨1, 0⟩).state.request_count ≤ 2 :=
  ⟨(quota_counter_invariant 2 c1Env ⟨1, 0⟩ (by decide)).1,
   (quota_counter_invariant 2 c1Env ⟨1, 0⟩ (by decide)).2.1⟩

/-- A page classified pending or connected was classified before the
More-menu stage, so the classifier performed no click: its trace is the
bare navigation. -/
theorem check_settled_trace (p : ProfilePage)
    (h : (check_connection_status p).1 = ConnStatus.pending ∨
         (check_connection_status p).1 = ConnStatus.connected) :
    (check_connection_status p).2 = [Action.nav] := by
  obtain ⟨o, vc, vp, f1, od, mm, fl⟩ := p
  cases o <;> cases vc <;> cases vp <;> cases f1 <;> cases od <;> cases fl <;>
    rcases mm with _ | mc <;> (try cases mc) <;>
    simp_all [check_connection_status, followFallback]

/-- C2 counterexample page: a first-degree badge is visible, so the
classifier answers `connected`. -/
def c2cePage : ProfilePage :=
  ⟨true, false, false, true, false, none, false⟩

/-- C2 counterexample environment: `LINKEDIN_VERIFY_CONNECTED=true` and
the paranoid re-check does find a Connect button, so the source falls
through into the retry loop (main.py 813-816, "Continue with connection
attempt"). -/
def c2ceEnv : SendEnv :=
  ⟨100, c2cePage, true, FindConnectCase.foundDirect,
    fun _ => AttemptOutcome.attemptFailed, 2⟩

/-- C2 second counterexample environment: the re-check finds no direct
Connect button, so `_find_connect_button` probes the More dropdown —
clicking the More button open and the body closed (main.py 1374-1419) —
before returning `None` and letting the call return `True`. -/
def c2ceEnv2 : SendEnv :=
  ⟨100, c2cePage, true, FindConnectCase.moreNoConnect,
    fun _ => AttemptOutcome.attemptFailed, 2⟩

/-- C2 counterexample: a profile classified `connected` for which the
call dispatches clicks, violating the claim as stated — both when the
re-check finds a Connect button (the call then proceeds with a full
attempt and does not return success) and when it finds none (the
More-dropdown probe inside `_find_connect_button` still dispatches
clicks before the call returns success). -/
theorem connected_override_dispatches_clicks :
    (check_connection_status c2cePage).1 = ConnStatus.connected ∧
    Action.clickControl ∈ (send_connection_request 5 c2ceEnv ⟨0, 0⟩).trace ∧
    (send_connection_request 5 c2ceEnv ⟨0, 0⟩).ok = false ∧
    Action.openMenu ∈ (send_connection_request 5 c2ceEnv2 ⟨0, 0⟩).trace ∧
    (send_connection_request 5 c2ceEnv2 ⟨0, 0⟩).ok = true := by
  decide

/-- C2 amended.  For every profile classified `pending`, and for every
profile classified `connected` when the `LINKEDIN_VERIFY_CONNECTED`
override is disabled, the workflow dispatches no click on any control,
leaves the quota counter unchanged, and returns success immediately.
(With the override enabled, the `_find_connect_button` re-check itself
can dispatch clicks while probing the More dropdown, and a found button
sends the call into a full connection attempt.) -/
theorem pending_connected_short_circuit (daily_limit : Nat) (env : SendEnv)
    (st : QuotaState) (hl : st.request_count < daily_limit)
    (hs : (check_connection_status env.page).1 = ConnStatus.pending ∨
          ((check_connection_status env.page).1 = ConnStatus.connected ∧
            env.verifyConnectedEnv = false)) :
    (send_connection_request daily_limit env st).ok = true ∧
    (send_connection_request daily_limit env st).state.request_count =
      st.request_count ∧
    Action.clickControl ∉ (send_connection_request daily_limit env st).trace ∧
    Action.openMenu ∉ (send_connection_request daily_limit env st).trace := by
  have hsc : (check_connection_status env.page).1 = ConnStatus.pending ∨
      (check_connection_status env.page).1 = ConnStatus.connected := by
    rcases hs with h | ⟨h, _⟩
    exacts [Or.inl h, Or.inr h]
  have htr := check_settled_trace env.page hsc
  have hlim : ¬ daily_limit ≤ st.request_count := Nat.not_le.mpr hl
  rcases hs with h | ⟨h, hv⟩
  · refine ⟨?_, ?_, ?_, ?_⟩ <;>
      simp [send_connection_request, hlim, h, htr]
  · refine ⟨?_, ?_, ?_, ?_⟩ <;>
      simp [send_connection_request, hlim, h, hv, htr]

/-- C2 witness page: visible pending evidence. -/
def c2wPage : ProfilePage :=
  ⟨true, false, true, false, false, none, false⟩

/-- C2 witness environment. -/
def c2wEnv : SendEnv :=
  ⟨0, c2wPage, false, FindConnectCase.noButton,
    fun _ => AttemptOutcome.raised, 2⟩

theorem pending_connected_short_circuit_witness :
    (send_connection_request 3 c2wEnv ⟨0, 5⟩).ok = true ∧
    (send_connection_request 3 c2wEnv ⟨0, 5⟩).state.request_count = 0 ∧
    Action.clickControl ∉ (send_connection_request 3 c2wEnv ⟨0, 5⟩).trace :=
  ⟨(pending_connected_short_circuit 3 c2wEnv ⟨0, 5⟩ (by decide)
      (Or.inl (by decide))).1,
   (pending_connected_short_circuit 3 c2wEnv ⟨0, 5⟩ (by decide)
      (Or.inl (by decide))).2.1,
   (pending_connected_short_circuit 3 c2wEnv ⟨0, 5⟩ (by decide)
      (Or.inl (by decide))).2.2.1⟩

/-- The throttle timestamp is written on every path: after the call,
`_last_request_time` is the entry time plus the throttle sleep. -/
theorem send_last_time (daily_limit : Nat) (env : SendEnv) (st : QuotaState) :
    (send_connection_request daily_limit env st).state.last_request_time =
      env.now + throttleWait st.last_request_time env.now := by
  by_cases hlim : daily_limit ≤ st.request_count
  · simp [send_connection_request, hlim]
  · rcases attemptLoop_cases env.outcome 0 (env.maxRetries + 1)
        { st with last_request_time :=
            env.now + throttleWait st.last_request_time env.now } with
      ⟨_, h2, _⟩ | ⟨_, h2⟩ <;>
    rcases hc : (check_connection_status env.page).1 with _ | _ | _ | _ <;>
    cases hv : env.verifyConnectedEnv <;>
    cases hr : findsButton env.recheck <;>
    simp [send_connection_request, hlim, hc, hv, hr, h2]

/-- C3 counterexample page: a not-connected profile, so the call
proceeds past the gates and navigates. -/
def c3cePage : ProfilePage :=
  ⟨true, true, false, false, false, none, false⟩

/-- C3 counterexample environment: the call arrives at `now = 20`. -/
def c3ceEnv : SendEnv :=
  ⟨20, c3cePage, false, FindConnectCase.noButton,
    fun _ => AttemptOutcome.attemptFailed, 2⟩

/-- C3 counterexample.  `_last_request_time` is written when a call
passes the throttle gate (main.py 792), before its navigation and
verification work.  Scenario: the previous call passed the gate at time
0 and its attempt work ran until time 20; the next call arrives at
`now = 20`, i.e. 0 seconds after the end of the previous attempt.  The
code computes a zero throttle wait and dispatches at once (the first
trace action is already the navigation), so the dispatch happens at
time 20 < 20 + 15: the 15-second interval is not measured from the end
of the previous attempt, refuting the claim as stated. -/
theorem throttle_measured_from_call_not_end :
    throttleWait 0 20 = 0 ∧
    (send_connection_request 10 c3ceEnv ⟨3, 0⟩).trace.head? =
      some Action.nav ∧
    20 + throttleWait 0 20 < 20 + 15 := by
  decide

/-- C3 amended.  The minimum 15-second inter-request interval is
measured from the moment the previous call passed the throttle gate
(just before its navigation), not from the end of the previous attempt:
dispatch happens no earlier than `last_request_time + 15`, and the gate
timestamp is rewritten on every call.  When today's persisted count is
at or above the daily limit, the call returns `False` with no
navigation and an unchanged counter; in a batch, the next profile is
then skipped with the daily-limit note and no navigation, and
processing stops. -/
theorem throttle_and_daily_limit_gate :
    (∀ last now : Nat, last ≤ now → last + 15 ≤ now + throttleWait last now) ∧
    (∀ (daily_limit : Nat) (env : SendEnv) (st : QuotaState),
      (send_connection_request daily_limit env st).state.last_request_time =
        env.now + throttleWait st.last_request_time env.now) ∧
    (∀ (daily_limit : Nat) (env : SendEnv) (st : QuotaState),
      daily_limit ≤ st.request_count →
      (send_connection_request daily_limit env st).ok = false ∧
      Action.nav ∉ (send_connection_request daily_limit env st).trace ∧
      (send_connection_request daily_limit env st).state.request_count =
        st.request_count) ∧
    (∀ (daily_limit : Nat) (r : RowEnv) (rest : List RowEnv) (st : QuotaState),
      daily_limit ≤ st.request_count →
      process_profiles daily_limit (r :: rest) st =
        ([⟨false, ConnStatus.unknown, "Skipped due to daily limit"⟩], st, [])) := by
  refine ⟨?_, send_last_time, ?_, ?_⟩
  · intro last now h
    unfold throttleWait
    split <;> omega
  · intro daily_limit env st h
    refine ⟨(send_refuses daily_limit env st h).1, ?_,
      (send_refuses daily_limit env st h).2.1⟩
    rw [(send_refuses daily_limit env st h).2.2]
    split <;> simp
  · intro daily_limit r rest st h
    simp [process_profiles, h]

/-- C3 witness environment for the refusal part. -/
def c3wEnv : SendEnv :=
  ⟨40, c3cePage, false, FindConnectCase.noButton,
    fun _ => AttemptOutcome.verifiedSend, 2⟩

theorem throttle_and_daily_limit_gate_witness :
    3 + 15 ≤ 10 + throttleWait 3 10 ∧
    (send_connection_request 2 c3wEnv ⟨2, 0⟩).ok = false ∧
    Action.nav ∉ (send_connection_request 2 c3wEnv ⟨2, 0⟩).trace ∧
    process_profiles 2 [⟨c3cePage, c3wEnv⟩] ⟨2, 0⟩ =
      ([⟨false, ConnStatus.unknown, "Skipped due to daily limit"⟩], ⟨2, 0⟩, []) :=
  ⟨throttle_and_daily_limit_gate.1 3 10 (by decide),
   (throttle_and_daily_limit_gate.2.2.1 2 c3wEnv ⟨2, 0⟩ (by decide)).1,
   (throttle_and_daily_limit_gate.2.2.1 2 c3wEnv ⟨2, 0⟩ (by decide)).2.1,
   throttle_and_daily_limit_gate.2.2.2 2 ⟨c3cePage, c3wEnv⟩ [] ⟨2, 0⟩ (by decide)⟩

/-- C4.  On a loaded profile page (no redirect), a visible primary
connect control makes the classifier return `not_connected`, whatever
the other evidence — including stale pending text — says: the
visible-connect check is evaluated first. -/
theorem visible_connect_overrides (p : ProfilePage)
    (h1 : p.onProfileUrl = true) (h2 : p.visibleConnect = true) :
    (check_connection_status p).1 = ConnStatus.not_connected := by
  simp [check_connection_status, h1, h2]

/-- C4 witness page: a visible connect control next to stale visible
"Pending" text. -/
def c4wPage : ProfilePage :=
  ⟨true, true, true, false, false, none, false⟩

theorem visible_connect_overrides_witness :
    (check_connection_status c4wPage).1 = ConnStatus.not_connected :=
  visible_connect_overrides c4wPage rfl rfl

/-- C6.  Whenever the classifier reaches the overflow-menu stage (a
visible "More" button, all earlier evidence negative) and opens the
menu, the trace on every exit path — connect option found, not found,
or the inspection raising — is exactly open followed by close before
the function returns. -/
theorem more_menu_always_closed (p : ProfilePage) (mc : MoreMenuCase)
    (hm : p.moreMenu = some mc) (ho : p.onProfileUrl = true)
    (hc : p.visibleConnect = false) (hp : p.visiblePending = false)
    (h1 : p.visibleFirstDegree = false) (hd : p.visibleOtherDegree = false) :
    (check_connection_status p).2 =
      [Action.nav, Action.openMenu, Action.closeMenu] := by
  cases mc <;> cases hf : p.visibleFollow <;>
    simp [check_connection_status, followFallback, hm, ho, hc, hp, h1, hd, hf]

/-- C6 witness page: overflow-menu inspection raises. -/
def c6wPage : ProfilePage :=
  ⟨true, false, false, false, false, some MoreMenuCase.inspectRaises, true⟩

theorem more_menu_always_closed_witness :
    (check_connection_status c6wPage).2 =
      [Action.nav, Action.openMenu, Action.closeMenu] :=
  more_menu_always_closed c6wPage MoreMenuCase.inspectRaises rfl rfl rfl rfl rfl rfl

/-- The claim's "scrolls ... and pauses briefly before each attempt" as
a trace checker: every click attempt must be preceded by a scroll more
recent than the previous attempt.  The flag records whether a scroll has
been seen since the last attempt (initially `false`). -/
def scrolledBeforeEachAttempt : List ClickAction → Bool → Bool
  | [], _ => true
  | ClickAction.scrollIntoView :: rest, _ => scrolledBeforeEachAttempt rest true
  | ClickAction.pause :: rest, ready => scrolledBeforeEachAttempt rest ready
  | ClickAction.attemptClick _ :: rest, ready =>
      ready && scrolledBeforeEachAttempt rest false

/-- The try/except chain attempts exactly the raising head of the
method list plus the first non-raising method, and succeeds iff the
latter exists. -/
theorem clickChain_eq (e : ClickElem) (l : List ClickMethod) :
    clickChain e l =
      (!(l.dropWhile (methodRaises e)).isEmpty,
       (l.takeWhile (methodRaises e) ++
         (l.dropWhile (methodRaises e)).take 1).map ClickAction.attemptClick) := by
  induction l with
  | nil => rfl
  | cons m rest ih =>
    by_cases hm : methodRaises e m = true
    · simp [clickChain, hm, ih]
    · have hm2 : methodRaises e m = false := by simpa using hm
      simp [clickChain, hm2]

/-- C5 counterexample element: the programmatic-handler technique
raises, the synthetic pointer-event technique succeeds. -/
def c5ceElem : ClickElem :=
  ⟨true, false, false, false, false, false, false⟩

/-- C5 counterexample.  The dispatcher scrolls and pauses once, before
the first technique only (main.py 408-412): when the first technique
raises, the second is attempted with no scroll or pause in between, so
the trace fails the before-each-attempt checker, refuting the claim as
stated. -/
theorem scroll_not_before_each_attempt :
    (try_all_click_methods c5ceElem).2 =
      [ClickAction.scrollIntoView, ClickAction.pause,
       ClickAction.attemptClick ClickMethod.jsClick,
       ClickAction.attemptClick ClickMethod.jsEvent] ∧
    scrolledBeforeEachAttempt (try_all_click_methods c5ceElem).2 false = false := by
  decide

/-- C5 amended.  The dispatcher scrolls the element into a centered
viewport and pauses once, before the first attempt (when the scroll
itself does not raise); it then attempts the six techniques in source
order, stopping at the first that completes without raising, and
returns success iff some technique does not raise — failure only when
all six raise. -/
theorem click_chain_order_and_short_circuit (e : ClickElem)
    (h : e.scrollRaises = false) :
    (try_all_click_methods e).2 =
      ClickAction.scrollIntoView :: ClickAction.pause ::
        ((clickMethodOrder.takeWhile (methodRaises e) ++
          (clickMethodOrder.dropWhile (methodRaises e)).take 1).map
            ClickAction.attemptClick) ∧
    ((try_all_click_methods e).1 = true ↔
      ∃ m ∈ clickMethodOrder, methodRaises e m = false) := by
  constructor
  · simp [try_all_click_methods, h, clickChain_eq]
  · simp only [try_all_click_methods, clickChain_eq]
    simp [List.isEmpty_iff, List.dropWhile_eq_nil_iff]

/-- C5 witness element: nothing raises, so only the first technique is
attempted. -/
def c5wElem : ClickElem :=
  ⟨false, false, false, false, false, false, false⟩

theorem click_chain_order_witness :
    (try_all_click_methods c5wElem).2 =
      [ClickAction.scrollIntoView, ClickAction.pause,
       ClickAction.attemptClick ClickMethod.jsClick] :=
  (click_chain_order_and_short_circuit c5wElem rfl).1

/-- C7.  The locator resolver returns `none` — it does not raise — when
no matched element is visible, and an element that vanishes between the
query and the visibility check is skipped rather than failing the
whole resolution. -/
theorem find_element_none_and_skip :
    (∀ es : List ElemState, (∀ e ∈ es, e ≠ ElemState.visible) →
      find_element es = none) ∧
    (∀ es : List ElemState,
      find_element (ElemState.vanishes :: es) =
        (find_element es).map (· + 1)) := by
  constructor
  · intro es h
    induction es with
    | nil => rfl
    | cons e rest ih =>
      have hrest : ∀ x ∈ rest, x ≠ ElemState.visible :=
        fun x hx => h x (List.mem_cons_of_mem e hx)
      have he : e ≠ ElemState.visible := h e (List.mem_cons_self e rest)
      cases e with
      | visible => exact absurd rfl he
      | hidden => simp [find_element, ih hrest]
      | vanishes => simp [find_element, ih hrest]
  · intro es
    rfl

theorem find_element_none_and_skip_witness :
    find_element [ElemState.hidden, ElemState.vanishes] = none :=
  find_element_none_and_skip.1 [ElemState.hidden, ElemState.vanishes] (by decide)

/-! ### Name resolution and message personalization
(process_profiles_from_csv, main.py 2306-2324)

```python
if name_column and name_column in row and row[name_column]:
    profile_name = row[name_column].strip()
else:
    try:
        profile_path = profile_url.split('/in/')[-1].split('/')[0].split('?')[0]
        profile_name = profile_path.replace('-', ' ').replace('.', ' ').title()
    except:
        profile_name = "there"  # Fallback
personalized_note = self.message_template
if '{name}' in personalized_note and profile_name:
    personalized_note = personalized_note.replace('{name}', profile_name)
```

The `except` arm is unreachable: `split`, `replace` and `title` on a
string cannot raise, so the "there" fallback never executes.  `some`
models a present, non-empty (truthy) name cell. -/

/-- Name derived from the URL slug. -/
def nameFromUrl (profile_url : String) : String :=
  pyTitle (pyReplace (pyReplace
    (pySplitHead (pySplitHead (pySplitLast profile_url "/in/") "/") "?")
    "-" " ") "." " ")

/-- Resolved personalization name: the stripped CSV cell when the name
column holds a truthy value, otherwise the URL-slug derivation. -/
def resolveProfileName : Option String → String → String
  | some cell, _ => pyStrip cell
  | none, url => nameFromUrl url

/-- The personalization step: replace `{name}` only when the template
contains the placeholder and the resolved name is truthy (non-empty). -/
def personalizeNote (template name : String) : String :=
  if pyContains template "\x7bname\x7d" && !(name == "") then
    pyReplace template "\x7bname\x7d" name
  else template

/-- C8 counterexample.  For a valid profile URL with an empty slug and
no name cell, the resolved name is the empty string — falsy — so the
`{name}` placeholder is left in the note verbatim instead of being
replaced by the literal "there": the claim's unresolved-name behaviour
is wrong on the code. -/
theorem unresolved_name_keeps_placeholder :
    resolveProfileName none "https://www.linkedin.com/in/" = "" ∧
    personalizeNote "Hi \x7bname\x7d!"
      (resolveProfileName none "https://www.linkedin.com/in/") =
      "Hi \x7bname\x7d!" ∧
    "Hi \x7bname\x7d!" ≠ "Hi there!" := by
  decide

/-- C8 amended.  Personalization replaces `{name}` with the resolved
name ("Hi Ada Lovelace!" both from a CSV name cell and from the URL
slug `ada-lovelace`); when the resolved name is empty the template is
returned unchanged, placeholder intact — the literal "there" lives only
in an unreachable exception fallback. -/
theorem personalization_resolved_and_empty :
    (∀ u : String,
      personalizeNote "Hi \x7bname\x7d!"
        (resolveProfileName (some "Ada Lovelace") u) = "Hi Ada Lovelace!") ∧
    personalizeNote "Hi \x7bname\x7d!"
      (resolveProfileName none "https://www.linkedin.com/in/ada-lovelace") =
      "Hi Ada Lovelace!" ∧
    (∀ template : String, personalizeNote template "" = template) := by
  refine ⟨fun u => ?_, by decide, fun template => ?_⟩
  · show personalizeNote "Hi \x7bname\x7d!" (pyStrip "Ada Lovelace") = _
    decide
  · simp [personalizeNote]

/-- C9 counterexample.  A URL already carrying the canonical head is
returned unchanged by `normalizeProfileUrl`, tracking parameters
included: normalization does not strip the query string here, refuting
the claim's "strips tracking parameters and fragments" for this input
(the idempotence half survives, see `normalize_idempotent`). -/
theorem normalize_keeps_query_when_canonical :
    normalizeProfileUrl "https://www.linkedin.com/in/ada?utm_source=share" =
      some "https://www.linkedin.com/in/ada?utm_source=share" ∧
    pyContains "https://www.linkedin.com/in/ada?utm_source=share"
      "utm_source" = true := by
  decide

/-- C9 amended.  Profile URL normalization is idempotent — a normalized
URL normalizes to itself — but query parameters and fragments are
stripped only on inputs that do not already carry a canonical head;
already-canonical URLs pass through untouched. -/
theorem normalize_idempotent (u v : String)
    (h : normalizeProfileUrl u = some v) :
    normalizeProfileUrl v = some v := by
  have hcanon := normalizeProfileUrl_output_canonical u v h
  unfold normalizeProfileUrl
  simp [hcanon]

theorem normalize_idempotent_witness :
    normalizeProfileUrl "https://www.linkedin.com/in/ada" =
      some "https://www.linkedin.com/in/ada" :=
  normalize_idempotent "http://linkedin.com/in/ada?utm=1#frag"
    "https://www.linkedin.com/in/ada" (by decide)

/-- C10.  `_verify_connection_sent` pairs verification and counting
atomically: a `True` return comes with the counter incremented by
exactly one and that new value written to the ledger within the call; a
`False` return (including the exception path) leaves the counters
untouched and writes nothing. -/
theorem verify_pairing (p : VerifyPage) (st : QuotaState) :
    ((verify_connection_sent p st).ok = true ∧
      (verify_connection_sent p st).state.request_count =
        st.request_count + 1 ∧
      (verify_connection_sent p st).state.last_request_time =
        st.last_request_time ∧
      (verify_connection_sent p st).trace =
        [Action.ledgerWrite (st.request_count + 1)]) ∨
    ((verify_connection_sent p st).ok = false ∧
      (verify_connection_sent p st).state = st ∧
      (verify_connection_sent p st).trace = []) := by
  unfold verify_connection_sent
  have hwalk : ∀ (checks : List Bool) (k : Nat),
      ((verifyWalk p.raisesAt k st checks).ok = true ∧
        (verifyWalk p.raisesAt k st checks).state.request_count =
          st.request_count + 1 ∧
        (verifyWalk p.raisesAt k st checks).state.last_request_time =
          st.last_request_time ∧
        (verifyWalk p.raisesAt k st checks).trace =
          [Action.ledgerWrite (st.request_count + 1)]) ∨
      ((verifyWalk p.raisesAt k st checks).ok = false ∧
        (verifyWalk p.raisesAt k st checks).state = st ∧
        (verifyWalk p.raisesAt k st checks).trace = []) := by
    intro checks
    induction checks with
    | nil => exact fun k => Or.inr ⟨rfl, rfl, rfl⟩
    | cons b rest ih =>
      intro k
      by_cases hra : p.raisesAt = some k
      · exact Or.inr ⟨by simp [verifyWalk, hra], by simp [verifyWalk, hra],
          by simp [verifyWalk, hra]⟩
      · cases b
        · simpa [verifyWalk, hra] using ih (k + 1)
        · exact Or.inl ⟨by simp [verifyWalk, hra], by simp [verifyWalk, hra],
            by simp [verifyWalk, hra], by simp [verifyWalk, hra]⟩
  exact hwalk (verifyChecks p) 0

end LinkedInAutomation
